import Mathlib

/-!
Verification of the device-loan reservation front-end.

The development shallowly embeds the client-side logic of the repository:

* the status-reconciliation layer of the reservations page
  (`normaliseStatus`, `isActiveReservation`, `effectiveDeviceStatus`,
  `deviceCounts`),
* the creation form's validation (`AddReviewForm.validate`,
  `AddReviewForm.handleSubmit`),
* the data-stream operations of the `use-reviews` composable
  (`fetchReviews`, `addReview`, `collectReservation`, `returnReservation`)
  and the page's `fetchDevices`,
* the page handlers that re-fetch both data sources after a mutation.

JavaScript idioms are modelled as follows.  `Date.now()` is an integer
parameter `now`; `new Date(s).getTime()`, which yields either a finite
timestamp or `NaN`, is an arbitrary parameter `parseDate : String → Option
Int` with `none` standing for `NaN`.  Optional string fields
(`status?: string` and the like) are `Option String`; the JavaScript
truthiness test on a string (`r.startDate ? … : …`) is explicit in the
embedding (`none` and `some ""` are both falsy).  The reactive refs mutated
by a request function become a record passed in and returned.  A `fetch`
call is represented by its observable outcome: a non-OK HTTP response, a
rejected `res.json()` (parse failure), or a parsed JSON body; bodies are
represented by inductives that enumerate exactly the structural tests the
code performs on them (`Array.isArray(json)`, `Array.isArray(json.data)`,
`body?.data && typeof body.data === 'object'`, the `error`/`errors`
fields).
-/

/-- `type Device` of the reservations page (part_002, lines 7–12). -/
structure Device where
  id : String
  label : Option String := none
  deviceType : Option String := none
  status : Option String := none
deriving Repr, DecidableEq

/-- `export type Reservation` of `use-reviews.ts` (lines 5–13). -/
structure Reservation where
  id : String
  deviceId : String
  userId : String
  status : Option String := none
  startDate : Option String := none
  endDate : Option String := none
  notes : Option String := none
deriving Repr, DecidableEq

/-- JS `String.prototype.trim`: drop whitespace from both ends.  Written by
structural recursion over the character list so that it evaluates by kernel
reduction (core `String.trim` is defined by well-founded recursion on byte
positions and does not). -/
def jsTrim (s : String) : String :=
  String.mk
    (((s.data.dropWhile Char.isWhitespace).reverse.dropWhile
      Char.isWhitespace).reverse)

/-- JS `String.prototype.toLowerCase` on the vocabularies in play (ASCII):
lower-case every character. -/
def jsToLower (s : String) : String :=
  String.mk (s.data.map Char.toLower)

/-- `normaliseStatus` (part_002, lines 114–121): trim, lowercase, map the
recognised vocabularies onto the four canonical strings. -/
def normaliseStatus (status : Option String) : String :=
  let s := jsToLower (jsTrim (status.getD ""))
  if s = "available" then "available"
  else if s = "reserved" then "reserved"
  else if s = "loaned" ∨ s = "loanedout" ∨ s = "loaned_out" then "loaned"
  else "unknown"

/-- The idiom `x ? new Date(x).getTime() : now` of `isActiveReservation`:
a missing or empty (falsy) date string defaults the bound to `now`,
otherwise the string is parsed (`none` standing for `NaN`). -/
def dateOrNow (parseDate : String → Option Int) (now : Int)
    (o : Option String) : Option Int :=
  match o with
  | some s => if s ≠ "" then parseDate s else some now
  | none => some now

/-- `isActiveReservation` (part_002, lines 130–140).  `parseDate` stands for
`new Date(s).getTime()` with `none` for `NaN`; `now` for `Date.now()`.  An
unparseable (`NaN`) bound makes the reservation count as active; otherwise
the window must contain `now` inclusively. -/
def isActiveReservation (parseDate : String → Option Int) (now : Int)
    (r : Reservation) : Bool :=
  match dateOrNow parseDate now r.startDate, dateOrNow parseDate now r.endDate with
  | some st, some en => decide (st ≤ now ∧ now ≤ en)
  | _, _ => true

/-- `effectiveDeviceStatus` (part_002, lines 142–162), with the surrounding
reactive `reservations.value` made an explicit argument.  `reservations.find`
is `List.find?`; `(active.status ?? '').toLowerCase()` is explicit. -/
def effectiveDeviceStatus (parseDate : String → Option Int) (now : Int)
    (reservations : List Reservation) (d : Device) : String :=
  let base := normaliseStatus d.status
  if base = "loaned" then "loaned"
  else
    match reservations.find? (fun r =>
        r.deviceId = d.id && isActiveReservation parseDate now r) with
    | some active =>
      let st := jsToLower (active.status.getD "")
      if st = "reserved" then "reserved"
      else if st = "collected" then "loaned"
      else if base = "reserved" then "reserved"
      else if base = "available" then "available"
      else "unknown"
    | none =>
      if base = "reserved" then "reserved"
      else if base = "available" then "available"
      else "unknown"

/-- The status-reconciliation algorithm exactly as §4 of the spec words it:
if the device's own status is "loaned" return "loaned"; else find a
reservation for that device whose time window contains the current instant;
if found and its status is "reserved" return "reserved", if "collected"
return "loaned"; else fall back to the device's own normalized status,
defaulting to "unknown". -/
def effectiveDeviceStatusSpec (parseDate : String → Option Int) (now : Int)
    (reservations : List Reservation) (d : Device) : String :=
  if normaliseStatus d.status = "loaned" then "loaned"
  else
    match reservations.find? (fun r =>
        r.deviceId = d.id && isActiveReservation parseDate now r) with
    | some active =>
      if active.status = some "reserved" then "reserved"
      else if active.status = some "collected" then "loaned"
      else normaliseStatus d.status
    | none => normaliseStatus d.status

/-- The server-owned reservation-status vocabulary of §3 of the spec:
`status` is one of reserved/collected/returned, or absent. -/
def serverStatusVocab (r : Reservation) : Prop :=
  r.status = none ∨ r.status = some "reserved" ∨ r.status = some "collected" ∨
    r.status = some "returned"

/-- `deviceCounts` (part_002, lines 164–177): total is the device count, and
each device increments the bucket of its effective status. -/
structure Counts where
  total : Nat
  available : Nat
  reserved : Nat
  loaned : Nat
  unknown : Nat
deriving Repr, DecidableEq

/-- One loop step of `deviceCounts`: `counts[s] += 1` at `s =
effectiveDeviceStatus d`. -/
def bumpCount (c : Counts) (s : String) : Counts :=
  if s = "available" then { c with available := c.available + 1 }
  else if s = "reserved" then { c with reserved := c.reserved + 1 }
  else if s = "loaned" then { c with loaned := c.loaned + 1 }
  else if s = "unknown" then { c with unknown := c.unknown + 1 }
  else c

def deviceCounts (parseDate : String → Option Int) (now : Int)
    (reservations : List Reservation) (devices : List Device) : Counts :=
  devices.foldl
    (fun c d => bumpCount c (effectiveDeviceStatus parseDate now reservations d))
    { total := devices.length, available := 0, reserved := 0, loaned := 0,
      unknown := 0 }

/-! ### The `use-reviews` composable and the page's device fetching -/

/-- Reactive refs of `use-reviews.ts` that the reservation operations read
and write (lines 22–27; `loading`/`adding`/`updating` flags are set and
cleared within each call and are not modelled). -/
structure ReviewsState where
  reservations : List Reservation
  totalCount : Nat
  error : Option String
deriving Repr, DecidableEq

/-- Reactive refs of the page's device section (part_002, lines 107–109). -/
structure DevicesState where
  devices : List Device
  devicesError : Option String
deriving Repr, DecidableEq

/-- Shape of a parsed GET response body, enumerating exactly the structural
tests the code performs: `arr` is a bare JSON array of records, `env` a JSON
object (its `data` field is `some` when it is an array of records, and its
`error`/`errors` fields are modelled when they are a string resp. an array
of strings), `other` any other JSON value. -/
inductive GetBody (α : Type) where
  | arr (xs : List α)
  | env (data : Option (List α)) (error : Option String)
      (errors : Option (List String))
  | other
deriving Repr, DecidableEq

/-- Shape of a parsed POST response body: `env` a JSON object whose `data`
field is `some` when it is a (truthy, `typeof === 'object'`) record, `item`
the record itself as the body, `nullBody` JSON `null`, `prim` any other
primitive (string/number/boolean). -/
inductive PostBody where
  | env (data : Option Reservation) (error : Option String)
      (errors : Option (List String))
  | item (r : Reservation)
  | nullBody
  | prim
deriving Repr, DecidableEq

/-- Core of `extractErrors` (use-reviews.ts, lines 33–39) on the
`error`/`errors` fields of an envelope: a non-empty `errors` array returns
its "; "-join (which may itself be the empty string, e.g. for
`errors: [""]`); otherwise a non-empty (truthy) `error` string is
returned. -/
def joinErrors (error : Option String) (errors : Option (List String)) :
    Option String :=
  match errors with
  | some (e :: es) => some (String.intercalate "; " (e :: es))
  | _ =>
    match error with
    | some s => if s = "" then none else some s
    | none => none

/-- The truthiness test every caller applies to `extractErrors`' result —
`if (maybeErr) throw new Error(maybeErr)`: `null` and the empty string are
falsy, so only a non-empty message is thrown. -/
def truthyErr : Option String → Option String
  | some s => if s = "" then none else some s
  | none => none

/-- `extractErrors` applied to a GET body: arrays and non-object bodies have
no (or falsy) `error`/`errors` fields and yield `none`. -/
def extractErrorsGet {α : Type} : GetBody α → Option String
  | .env _ err errs => joinErrors err errs
  | _ => none

/-- `extractErrors` applied to a POST body: a record, `null` or a primitive
has no (or falsy) `error`/`errors` fields and yields `none`. -/
def extractErrorsPost : PostBody → Option String
  | .env _ err errs => joinErrors err errs
  | _ => none

/-- Observable outcome of an unauthenticated `fetch` + `res.json()`:
a non-OK HTTP response, a rejected `res.json()` (parse failure, carrying
the thrown error's message), or a parsed body. -/
inductive FetchOutcome (β : Type) where
  | httpErr (status : Nat) (statusText : String)
  | jsonErr (msg : String)
  | ok (body : β)
deriving Repr, DecidableEq

/-- Observable outcome of an authenticated request: additionally the token
acquisition may throw (`getToken`, use-reviews.ts lines 44–55), and a non-OK
response also carries the response text appended to the message. -/
inductive ReqOutcome (β : Type) where
  | tokenErr (msg : String)
  | httpErr (status : Nat) (statusText : String) (bodyText : String)
  | jsonErr (msg : String)
  | ok (body : β)
deriving Repr, DecidableEq

/-- `fetchReviews` (use-reviews.ts, lines 57–98). -/
def fetchReviews (baseUrl : String) (out : FetchOutcome (GetBody Reservation))
    (st : ReviewsState) : ReviewsState :=
  if baseUrl = "" then
    { st with
      error := some "VITE_REVIEWS_BASE_URL is not configured"
      reservations := []
      totalCount := 0 }
  else
    match out with
    | .httpErr status statusText =>
      { st with
        error := some ("HTTP " ++ toString status ++ " " ++ statusText)
        reservations := []
        totalCount := 0 }
    | .jsonErr msg =>
      { st with
        error := some msg
        reservations := []
        totalCount := 0 }
    | .ok body =>
      let data : List Reservation :=
        match body with
        | .arr xs => xs
        | .env (some xs) _ _ => xs
        | _ => []
      let maybeErr : Option String :=
        match body with
        | .arr _ => none
        | b => extractErrorsGet b
      match truthyErr maybeErr with
      | some m =>
        { st with
          error := some m
          reservations := []
          totalCount := 0 }
      | none =>
        { st with
          error := none
          reservations := data
          totalCount := data.length }

/-- `fetchDevices` (part_002, lines 179–213).  Note it never consults the
envelope's `error`/`errors` fields. -/
def fetchDevices (deviceLoansBaseUrl : String)
    (out : FetchOutcome (GetBody Device)) (st : DevicesState) : DevicesState :=
  if deviceLoansBaseUrl = "" then
    { st with
      devicesError := some "VITE_DEVICELOANS_BASE_URL is not configured"
      devices := [] }
  else
    match out with
    | .httpErr status statusText =>
      { st with
        devicesError :=
          some ("DeviceLoans HTTP " ++ toString status ++ " " ++ statusText)
        devices := [] }
    | .jsonErr msg =>
      { st with
        devicesError := some msg
        devices := [] }
    | .ok body =>
      let data : List Device :=
        match body with
        | .env (some xs) _ _ => xs
        | .arr xs => xs
        | _ => []
      { st with
        devices := data
        devicesError := none }

/-- `body?.data && typeof body.data === 'object' ? body.data : body`, as a
typed record when one results (use-reviews.ts, lines 136–139, 187–190,
237–240): `none` when the expression denotes something that is not a
reservation record. -/
def extractRecord : PostBody → Option Reservation
  | .env (some r) _ _ => some r
  | .item r => some r
  | _ => none

/-- `addReview` (use-reviews.ts, lines 100–154). -/
def addReview (baseUrl : String) (out : ReqOutcome PostBody)
    (st : ReviewsState) : ReviewsState :=
  if baseUrl = "" then
    { st with error := some "VITE_REVIEWS_BASE_URL is not configured" }
  else
    match out with
    | .tokenErr msg => { st with error := some msg }
    | .httpErr status statusText text =>
      { st with
        error :=
          some ("HTTP " ++ toString status ++ " " ++ statusText ++ " " ++ text) }
    | .jsonErr msg => { st with error := some msg }
    | .ok body =>
      let created? := extractRecord body
      match truthyErr (extractErrorsPost body) with
      | some m => { st with error := some m }
      | none =>
        match created? with
        | some c =>
          if c.id ≠ "" then
            { st with
              error := none
              reservations := c :: st.reservations
              totalCount := (c :: st.reservations).length }
          else { st with error := none }
        | none => { st with error := none }

/-- `collectReservation` (use-reviews.ts, lines 156–204).  On a JSON `null`
body the code reads `updated.id` inside the `map` callback, so a non-empty
list throws a TypeError that the catch converts to an error message; any
other non-record body compares the string `r.id` with `undefined`, leaving
the list unchanged. -/
def collectReservation (baseUrl : String) (out : ReqOutcome PostBody)
    (st : ReviewsState) : ReviewsState :=
  if baseUrl = "" then
    { st with error := some "VITE_REVIEWS_BASE_URL is not configured" }
  else
    match out with
    | .tokenErr msg => { st with error := some msg }
    | .httpErr status statusText text =>
      { st with
        error :=
          some ("HTTP " ++ toString status ++ " " ++ statusText ++ " " ++ text) }
    | .jsonErr msg => { st with error := some msg }
    | .ok body =>
      match truthyErr (extractErrorsPost body) with
      | some m => { st with error := some m }
      | none =>
        match body with
        | .nullBody =>
          if st.reservations.isEmpty then { st with error := none }
          else
            { st with
              error := some "Cannot read properties of null (reading 'id')" }
        | _ =>
          match extractRecord body with
          | some u =>
            { st with
              error := none
              reservations :=
                st.reservations.map (fun r => if r.id = u.id then u else r) }
          | none => { st with error := none }

/-- `returnReservation` (use-reviews.ts, lines 206–254); identical handling
to `collectReservation`, against the `/return` endpoint. -/
def returnReservation (baseUrl : String) (out : ReqOutcome PostBody)
    (st : ReviewsState) : ReviewsState :=
  if baseUrl = "" then
    { st with error := some "VITE_REVIEWS_BASE_URL is not configured" }
  else
    match out with
    | .tokenErr msg => { st with error := some msg }
    | .httpErr status statusText text =>
      { st with
        error :=
          some ("HTTP " ++ toString status ++ " " ++ statusText ++ " " ++ text) }
    | .jsonErr msg => { st with error := some msg }
    | .ok body =>
      match truthyErr (extractErrorsPost body) with
      | some m => { st with error := some m }
      | none =>
        match body with
        | .nullBody =>
          if st.reservations.isEmpty then { st with error := none }
          else
            { st with
              error := some "Cannot read properties of null (reading 'id')" }
        | _ =>
          match extractRecord body with
          | some u =>
            { st with
              error := none
              reservations :=
                st.reservations.map (fun r => if r.id = u.id then u else r) }
          | none => { st with error := none }

/-! ### The creation form (`AddReviewForm.vue`) -/

/-- The reactive `form` of `AddReviewForm.vue` (lines 22–27): four plain
string fields, empty when untouched. -/
structure FormState where
  deviceId : String
  userId : String
  startDate : String
  notes : String
deriving Repr, DecidableEq

/-- `export type CreateReservationPayload` (AddReviewForm.vue, lines 5–10). -/
structure CreateReservationPayload where
  deviceId : String
  userId : String
  startDate : Option String := none
  notes : Option String := none
deriving Repr, DecidableEq

namespace AddReviewForm

/-- The `errors` record built by `validate` (AddReviewForm.vue, lines
37–61), as the list of (field, message) entries it sets.  `new
Date(form.startDate).getTime()` being `NaN` is `parseDate f.startDate =
none`; the `if (form.startDate)` / `if (form.notes && …)` truthiness guards
are the `≠ ""` conjuncts. -/
def validationErrors (parseDate : String → Option Int) (f : FormState) :
    List (String × String) :=
  (if jsTrim f.deviceId = "" then [("deviceId", "Device ID is required")]
   else []) ++
  (if jsTrim f.userId = "" then [("userId", "User ID is required")] else []) ++
  (if f.startDate ≠ "" ∧ parseDate f.startDate = none then
    [("startDate", "Start date must be a valid date/time")]
   else []) ++
  (if f.notes ≠ "" ∧ 500 < (jsTrim f.notes).length then
    [("notes", "Notes must be 500 characters or fewer")]
   else [])

/-- `validate` returns `Object.keys(errors).length === 0`. -/
def validate (parseDate : String → Option Int) (f : FormState) : Bool :=
  (validationErrors parseDate f).isEmpty

/-- `handleSubmit` (AddReviewForm.vue, lines 73–87): `none` when validation
fails and no `submit` event is emitted, otherwise the emitted payload, with
`form.startDate || undefined` and `form.notes.trim() || undefined` as the
optional fields. -/
def handleSubmit (parseDate : String → Option Int) (f : FormState) :
    Option CreateReservationPayload :=
  if validate parseDate f then
    some
      { deviceId := jsTrim f.deviceId
        userId := jsTrim f.userId
        startDate := if f.startDate ≠ "" then some f.startDate else none
        notes := if jsTrim f.notes ≠ "" then some (jsTrim f.notes) else none }
  else none

end AddReviewForm

/-! ### Page handlers: refetching both data sources -/

/-- The page's whole reactive data state: the reservations stream and the
devices stream, disjoint components. -/
structure AppState where
  rs : ReviewsState
  ds : DevicesState
deriving Repr, DecidableEq

/-- `fetchReviews()` lifted to the page state: it touches only the
reservations component. -/
def fetchReviewsA (baseUrl : String) (out : FetchOutcome (GetBody Reservation))
    (st : AppState) : AppState :=
  { st with rs := fetchReviews baseUrl out st.rs }

/-- `fetchDevices()` lifted to the page state: it touches only the devices
component. -/
def fetchDevicesA (deviceLoansBaseUrl : String)
    (out : FetchOutcome (GetBody Device)) (st : AppState) : AppState :=
  { st with ds := fetchDevices deviceLoansBaseUrl out st.ds }

namespace Page

/-- The page's `handleSubmit` (part_002, lines 226–247): guarded by
`canCreate`; runs `addReview`, and on success (`!error.value`) awaits
`Promise.all([fetchReviews(), fetchDevices()])`.  The `Promise.all` pair is
written here as one of its two serializations; order-irrelevance is proved
separately. -/
def handleSubmit (canCreate : Bool) (baseUrl : String)
    (addOut : ReqOutcome PostBody) (rOut : FetchOutcome (GetBody Reservation))
    (deviceLoansBaseUrl : String) (dOut : FetchOutcome (GetBody Device))
    (st : AppState) : AppState :=
  if !canCreate then st
  else
    let st1 : AppState := { st with rs := addReview baseUrl addOut st.rs }
    if st1.rs.error = none then
      fetchDevicesA deviceLoansBaseUrl dOut (fetchReviewsA baseUrl rOut st1)
    else st1

/-- `handleCollect` (part_002, lines 255–266): guarded by a truthy `r.id`
and `canManageLoans`; runs `collectReservation` (which never throws), then
awaits `Promise.all([fetchReviews(), fetchDevices()])`. -/
def handleCollect (canManageLoans : Bool) (r : Reservation) (baseUrl : String)
    (out : ReqOutcome PostBody) (rOut : FetchOutcome (GetBody Reservation))
    (deviceLoansBaseUrl : String) (dOut : FetchOutcome (GetBody Device))
    (st : AppState) : AppState :=
  if r.id = "" then st
  else if !canManageLoans then st
  else
    fetchDevicesA deviceLoansBaseUrl dOut (fetchReviewsA baseUrl rOut
      { st with rs := collectReservation baseUrl out st.rs })

/-- `handleReturn` (part_002, lines 268–279), identical to `handleCollect`
with `returnReservation`. -/
def handleReturn (canManageLoans : Bool) (r : Reservation) (baseUrl : String)
    (out : ReqOutcome PostBody) (rOut : FetchOutcome (GetBody Reservation))
    (deviceLoansBaseUrl : String) (dOut : FetchOutcome (GetBody Device))
    (st : AppState) : AppState :=
  if r.id = "" then st
  else if !canManageLoans then st
  else
    fetchDevicesA deviceLoansBaseUrl dOut (fetchReviewsA baseUrl rOut
      { st with rs := returnReservation baseUrl out st.rs })

/-- `onMounted` (part_002, lines 287–289): `Promise.all([fetchDevices(),
fetchReviews()])` at page load, written as one serialization. -/
def onMounted (deviceLoansBaseUrl : String)
    (dOut : FetchOutcome (GetBody Device)) (baseUrl : String)
    (rOut : FetchOutcome (GetBody Reservation)) (st : AppState) : AppState :=
  fetchReviewsA baseUrl rOut (fetchDevicesA deviceLoansBaseUrl dOut st)

end Page

/-! ### Concrete inputs used in examples, witnesses and counterexamples -/

/-- The device of the spec's worked example: `{id:"d1", status:"available"}`. -/
def exDevice : Device := { id := "d1", status := some "available" }

/-- The reservation of the spec's worked example: `{id:"r1", deviceId:"d1",
status:"reserved", startDate:<now-1h>, endDate:<now+1h>}`. -/
def exReservation : Reservation :=
  { id := "r1"
    deviceId := "d1"
    userId := "u1"
    status := some "reserved"
    startDate := some "now-1h"
    endDate := some "now+1h" }

/-- A date parser for the worked example, at `now = 0` (milliseconds): the
two window bounds parse to one hour before and after now. -/
def exParseDate : String → Option Int := fun s =>
  if s = "now-1h" then some (-3600000)
  else if s = "now+1h" then some 3600000
  else none

/-- A filled form whose notes are 501 characters long (500 `a`s and a
trailing space), so that the raw notes exceed 500 characters while the
trimmed notes do not. -/
def overlongNotesForm : FormState :=
  { deviceId := "d1"
    userId := "u1"
    startDate := ""
    notes := String.mk (List.replicate 500 'a') ++ " " }

/-! ### Helper lemmas -/

theorem normaliseStatus_mem (s : Option String) :
    normaliseStatus s = "available" ∨ normaliseStatus s = "reserved" ∨
    normaliseStatus s = "loaned" ∨ normaliseStatus s = "unknown" := by
  simp only [normaliseStatus]
  split_ifs <;> simp

theorem statusFallback_eq (b : String)
    (hmem : b = "available" ∨ b = "reserved" ∨ b = "loaned" ∨ b = "unknown")
    (h : ¬ b = "loaned") :
    (if b = "reserved" then "reserved"
     else if b = "available" then "available" else "unknown") = b := by
  rcases hmem with h'|h'|h'|h' <;> subst h' <;> simp_all

theorem effectiveDeviceStatus_mem (parseDate : String → Option Int)
    (now : Int) (rs : List Reservation) (d : Device) :
    effectiveDeviceStatus parseDate now rs d = "available" ∨
    effectiveDeviceStatus parseDate now rs d = "reserved" ∨
    effectiveDeviceStatus parseDate now rs d = "loaned" ∨
    effectiveDeviceStatus parseDate now rs d = "unknown" := by
  simp only [effectiveDeviceStatus]
  by_cases h : normaliseStatus d.status = "loaned"
  · simp [h]
  · rw [if_neg h]
    cases hf : List.find? (fun r =>
        decide (r.deviceId = d.id) && isActiveReservation parseDate now r) rs with
    | none => simp only [hf]; split_ifs <;> simp
    | some active => simp only [hf]; split_ifs <;> simp

theorem bumpCount_total (c : Counts) (s : String) :
    (bumpCount c s).total = c.total := by
  unfold bumpCount; split_ifs <;> rfl

theorem bumpCount_sum (c : Counts) (s : String)
    (hs : s = "available" ∨ s = "reserved" ∨ s = "loaned" ∨ s = "unknown") :
    (bumpCount c s).available + (bumpCount c s).reserved +
      (bumpCount c s).loaned + (bumpCount c s).unknown =
    c.available + c.reserved + c.loaned + c.unknown + 1 := by
  rcases hs with h|h|h|h <;> subst h <;> simp [bumpCount] <;> omega

theorem countsFold_invariant (parseDate : String → Option Int) (now : Int)
    (rs : List Reservation) (devices : List Device) (c : Counts) :
    (devices.foldl
      (fun c d => bumpCount c (effectiveDeviceStatus parseDate now rs d)) c).total
        = c.total ∧
    (devices.foldl
      (fun c d => bumpCount c (effectiveDeviceStatus parseDate now rs d)) c).available
      + (devices.foldl
      (fun c d => bumpCount c (effectiveDeviceStatus parseDate now rs d)) c).reserved
      + (devices.foldl
      (fun c d => bumpCount c (effectiveDeviceStatus parseDate now rs d)) c).loaned
      + (devices.foldl
      (fun c d => bumpCount c (effectiveDeviceStatus parseDate now rs d)) c).unknown
      = c.available + c.reserved + c.loaned + c.unknown + devices.length := by
  induction devices generalizing c with
  | nil => simp
  | cons d ds ih =>
    simp only [List.foldl_cons, List.length_cons]
    obtain ⟨ht, hsum⟩ := ih (bumpCount c (effectiveDeviceStatus parseDate now rs d))
    refine ⟨ht.trans (bumpCount_total c _), ?_⟩
    rw [hsum, bumpCount_sum c _ (effectiveDeviceStatus_mem parseDate now rs d)]
    omega

/-! ### Claim theorems -/

/-- C1: `effectiveDeviceStatus` follows exactly the spec's algorithm — own
normalized status "loaned" wins; else an overlapping reservation's status
"reserved"/"collected" maps to "reserved"/"loaned"; else the own normalized
status, defaulting to "unknown" — for every device and every reservation set
drawn from the spec's server-owned status vocabulary
(reserved/collected/returned or absent, §3).  In particular, for the
device `{id:"d1", status:"available"}` with a single reservation
`{deviceId:"d1", status:"reserved"}` whose window contains now, the result
is "reserved"; with no overlapping reservation it is "available". -/
theorem effectiveDeviceStatus_matches_spec (parseDate : String → Option Int)
    (now : Int) (reservations : List Reservation) (d : Device)
    (hvocab : ∀ r ∈ reservations, serverStatusVocab r) :
    effectiveDeviceStatus parseDate now reservations d =
      effectiveDeviceStatusSpec parseDate now reservations d ∧
    effectiveDeviceStatus exParseDate 0 [exReservation] exDevice = "reserved" ∧
    effectiveDeviceStatus exParseDate 0 [] exDevice = "available" := by
  refine ⟨?_, by decide, by decide⟩
  simp only [effectiveDeviceStatus, effectiveDeviceStatusSpec]
  by_cases h : normaliseStatus d.status = "loaned"
  · rw [if_pos h, if_pos h]
  · rw [if_neg h, if_neg h]
    cases hf : List.find? (fun r =>
        decide (r.deviceId = d.id) && isActiveReservation parseDate now r)
        reservations with
    | none =>
      simp only [hf]
      exact statusFallback_eq _ (normaliseStatus_mem d.status) h
    | some active =>
      simp only [hf]
      rcases hvocab active (List.mem_of_find?_eq_some hf) with hst|hst|hst|hst <;>
        rw [hst]
      · simp only [Option.getD_none]
        rw [if_neg (show ¬ jsToLower "" = "reserved" by decide),
          if_neg (show ¬ jsToLower "" = "collected" by decide),
          if_neg (show ¬ (none : Option String) = some "reserved" by decide),
          if_neg (show ¬ (none : Option String) = some "collected" by decide)]
        exact statusFallback_eq _ (normaliseStatus_mem d.status) h
      · simp only [Option.getD_some]
        rw [if_pos (show jsToLower "reserved" = "reserved" by decide)]
        simp
      · simp only [Option.getD_some]
        rw [if_neg (show ¬ jsToLower "collected" = "reserved" by decide),
          if_pos (show jsToLower "collected" = "collected" by decide),
          if_neg (show ¬ (some "collected" : Option String) = some "reserved" by decide)]
        simp
      · simp only [Option.getD_some]
        rw [if_neg (show ¬ jsToLower "returned" = "reserved" by decide),
          if_neg (show ¬ jsToLower "returned" = "collected" by decide),
          if_neg (show ¬ (some "returned" : Option String) = some "reserved" by decide),
          if_neg (show ¬ (some "returned" : Option String) = some "collected" by decide)]
        exact statusFallback_eq _ (normaliseStatus_mem d.status) h

/-- Witness for C1 at the spec's worked example. -/
theorem effectiveDeviceStatus_matches_spec_witness :
    (∀ r ∈ [exReservation], serverStatusVocab r) ∧
    effectiveDeviceStatus exParseDate 0 [exReservation] exDevice =
      effectiveDeviceStatusSpec exParseDate 0 [exReservation] exDevice :=
  have hv : ∀ r ∈ [exReservation], serverStatusVocab r := by
    intro r hr
    rw [List.mem_singleton] at hr
    subst hr
    exact Or.inr (Or.inl rfl)
  ⟨hv,
    (effectiveDeviceStatus_matches_spec exParseDate 0 [exReservation] exDevice
      hv).1⟩

/-- C2: `effectiveDeviceStatus` is total and four-valued — for every
(device, reservation-set, clock, parser) it returns one of
available/reserved/loaned/unknown — a device whose own record normalizes to
"loaned" yields "loaned" regardless of the reservation set, and the
normalization lowercases (and trims) and accepts the
"loaned"/"loanedout"/"loaned_out" vocabularies. -/
theorem effectiveDeviceStatus_total_four_valued
    (parseDate : String → Option Int) (now : Int)
    (rs : List Reservation) (d : Device) :
    (effectiveDeviceStatus parseDate now rs d = "available" ∨
     effectiveDeviceStatus parseDate now rs d = "reserved" ∨
     effectiveDeviceStatus parseDate now rs d = "loaned" ∨
     effectiveDeviceStatus parseDate now rs d = "unknown") ∧
    (normaliseStatus d.status = "loaned" →
      effectiveDeviceStatus parseDate now rs d = "loaned") ∧
    (∀ s : String,
      (jsToLower (jsTrim s) = "loaned" ∨ jsToLower (jsTrim s) = "loanedout" ∨
        jsToLower (jsTrim s) = "loaned_out") →
      normaliseStatus (some s) = "loaned") := by
  refine ⟨effectiveDeviceStatus_mem parseDate now rs d, ?_, ?_⟩
  · intro h
    simp [effectiveDeviceStatus, h]
  · intro s hs
    simp only [normaliseStatus, Option.getD_some]
    rcases hs with h|h|h <;> simp only [h] <;> decide

/-- Witness for C2: a device marked `" LoanedOut "` (noncanonical casing and
spacing) is "loaned" even against an active "reserved" reservation. -/
theorem effectiveDeviceStatus_total_four_valued_witness :
    effectiveDeviceStatus exParseDate 0 [exReservation]
      { id := "d1", status := some " LoanedOut " } = "loaned" :=
  (effectiveDeviceStatus_total_four_valued exParseDate 0 [exReservation]
    { id := "d1", status := some " LoanedOut " }).2.1 (by decide)

/-- C3: a reservation with neither start nor end date is treated as
currently active, at every instant and under every date parser. -/
theorem isActiveReservation_no_dates_active (parseDate : String → Option Int)
    (now : Int) (r : Reservation)
    (hs : r.startDate = none) (he : r.endDate = none) :
    isActiveReservation parseDate now r = true := by
  simp [isActiveReservation, dateOrNow, hs, he]

/-- Witness for C3. -/
theorem isActiveReservation_no_dates_active_witness :
    isActiveReservation (fun _ => none) 0
      { id := "r2", deviceId := "d2", userId := "u2" } = true :=
  isActiveReservation_no_dates_active (fun _ => none) 0 _ rfl rfl

/-- C9: a reservation one of whose date bounds is present (and truthy) but
unparseable — the computed timestamp is `NaN` — is treated as currently
active.  (An empty-string date is falsy in JS and defaults to `now` instead
of being parsed, so it is not an unparseable bound.) -/
theorem isActiveReservation_unparseable_dates_active
    (parseDate : String → Option Int) (now : Int) (r : Reservation)
    (h : (∃ s, r.startDate = some s ∧ s ≠ "" ∧ parseDate s = none) ∨
         (∃ s, r.endDate = some s ∧ s ≠ "" ∧ parseDate s = none)) :
    isActiveReservation parseDate now r = true := by
  simp only [isActiveReservation]
  rcases h with ⟨s, hs, hne, hp⟩ | ⟨s, hs, hne, hp⟩
  · rw [hs, show dateOrNow parseDate now (some s) = parseDate s from by
      simp [dateOrNow, hne], hp]
  · rw [hs, show dateOrNow parseDate now (some s) = parseDate s from by
      simp [dateOrNow, hne], hp]
    cases dateOrNow parseDate now r.startDate <;> rfl

/-- Witness for C9. -/
theorem isActiveReservation_unparseable_dates_active_witness :
    isActiveReservation (fun _ => none) 0
      { id := "r3", deviceId := "d3", userId := "u3",
        startDate := some "not-a-date" } = true :=
  isActiveReservation_unparseable_dates_active (fun _ => none) 0 _
    (Or.inl ⟨"not-a-date", rfl, by decide, rfl⟩)

/-- C8: `deviceCounts` partitions the device list — the four status buckets
sum to `total`, which is the number of devices, so every device is counted
under exactly one effective status. -/
theorem deviceCounts_partition (parseDate : String → Option Int) (now : Int)
    (rs : List Reservation) (devices : List Device) :
    (deviceCounts parseDate now rs devices).available +
      (deviceCounts parseDate now rs devices).reserved +
      (deviceCounts parseDate now rs devices).loaned +
      (deviceCounts parseDate now rs devices).unknown =
      (deviceCounts parseDate now rs devices).total ∧
    (deviceCounts parseDate now rs devices).total = devices.length := by
  unfold deviceCounts
  obtain ⟨ht, hsum⟩ := countsFold_invariant parseDate now rs devices
    { total := devices.length, available := 0, reserved := 0, loaned := 0,
      unknown := 0 }
  refine ⟨?_, by simpa using ht⟩
  rw [hsum, ht]
  simp

theorem jsTrim_empty : jsTrim "" = "" := by decide

theorem validate_true_iff (parseDate : String → Option Int) (f : FormState) :
    AddReviewForm.validate parseDate f = true ↔
      ¬(jsTrim f.deviceId = "" ∨ jsTrim f.userId = "" ∨
        (f.startDate ≠ "" ∧ parseDate f.startDate = none) ∨
        (f.notes ≠ "" ∧ 500 < (jsTrim f.notes).length)) := by
  simp only [AddReviewForm.validate, AddReviewForm.validationErrors]
  split_ifs <;> simp_all

/-- C4 (amended: the notes bound applies to the trimmed notes, since
`validate` checks `form.notes.trim().length > 500`): the form rejects
submission — `handleSubmit` emits nothing — exactly when the device id is
blank, the user id is blank, a supplied start date fails to parse, or the
trimmed notes exceed 500 characters; an accepted submission carries the
trimmed device and user ids. -/
theorem handleSubmit_rejects_iff (parseDate : String → Option Int)
    (f : FormState) :
    (AddReviewForm.handleSubmit parseDate f = none ↔
      jsTrim f.deviceId = "" ∨ jsTrim f.userId = "" ∨
      (f.startDate ≠ "" ∧ parseDate f.startDate = none) ∨
      500 < (jsTrim f.notes).length) ∧
    ∀ p, AddReviewForm.handleSubmit parseDate f = some p →
      p.deviceId = jsTrim f.deviceId ∧ p.userId = jsTrim f.userId := by
  have hnotes : (f.notes ≠ "" ∧ 500 < (jsTrim f.notes).length) ↔
      500 < (jsTrim f.notes).length := by
    constructor
    · exact And.right
    · intro hL
      refine ⟨?_, hL⟩
      intro h0
      rw [h0, jsTrim_empty] at hL
      simp at hL
  constructor
  · cases hv : AddReviewForm.validate parseDate f with
    | false =>
      have hc := validate_true_iff parseDate f
      rw [hv] at hc
      simp only [Bool.false_eq_true, false_iff, not_not] at hc
      simp only [AddReviewForm.handleSubmit, hv, Bool.false_eq_true, if_false,
        true_iff]
      rcases hc with h|h|h|h
      · exact Or.inl h
      · exact Or.inr (Or.inl h)
      · exact Or.inr (Or.inr (Or.inl h))
      · exact Or.inr (Or.inr (Or.inr h.2))
    | true =>
      have hc := validate_true_iff parseDate f
      rw [hv] at hc
      simp only [true_iff] at hc
      simp only [AddReviewForm.handleSubmit, hv, if_true, reduceCtorEq,
        false_iff]
      intro hcon
      apply hc
      rcases hcon with h|h|h|h
      · exact Or.inl h
      · exact Or.inr (Or.inl h)
      · exact Or.inr (Or.inr (Or.inl h))
      · exact Or.inr (Or.inr (Or.inr (hnotes.mpr h)))
  · intro p hp
    simp only [AddReviewForm.handleSubmit] at hp
    split_ifs at hp
    all_goals injection hp with hp
    all_goals subst hp
    all_goals exact ⟨rfl, rfl⟩

set_option maxRecDepth 4000 in
/-- Counterexample to C4 as stated: a form whose raw notes are 501
characters (500 `a`s and a trailing space, exceeding 500 characters) is
accepted, because `validate` bounds the trimmed notes only. -/
theorem handleSubmit_accepts_overlong_raw_notes :
    500 < overlongNotesForm.notes.length ∧
    (AddReviewForm.handleSubmit (fun _ => none) overlongNotesForm).isSome
      = true := by
  constructor <;> decide

/-- Witness for C4: a blank device id is rejected. -/
theorem handleSubmit_rejects_iff_witness :
    AddReviewForm.handleSubmit (fun _ => none)
      { deviceId := " ", userId := "u1", startDate := "", notes := "" }
      = none :=
  (handleSubmit_rejects_iff (fun _ => none)
    { deviceId := " ", userId := "u1", startDate := "", notes := "" }).1.mpr
    (Or.inl (by decide))

theorem fetchA_comm (baseUrl : String)
    (rOut : FetchOutcome (GetBody Reservation)) (dUrl : String)
    (dOut : FetchOutcome (GetBody Device)) (s : AppState) :
    fetchReviewsA baseUrl rOut (fetchDevicesA dUrl dOut s) =
      fetchDevicesA dUrl dOut (fetchReviewsA baseUrl rOut s) := rfl

/-- C5 (amended: for `fetchReviews` the envelope case additionally requires
the envelope to carry no non-empty `error`/`errors` field, since
`fetchReviews` treats such an envelope as a failure and clears the list):
both GET consumers accept a bare JSON array and a `{data: [...]}` envelope —
the (data) array becomes the stored list, and `fetchReviews` sets
`totalCount` to its length. -/
theorem get_bodies_array_or_envelope_accepted
    (baseUrl deviceLoansBaseUrl : String)
    (hb : baseUrl ≠ "") (hd : deviceLoansBaseUrl ≠ "")
    (xs : List Reservation) (ys : List Device)
    (st : ReviewsState) (dst : DevicesState)
    (err derr : Option String) (errs derrs : Option (List String))
    (henv : joinErrors err errs = none) :
    ((fetchReviews baseUrl (.ok (.arr xs)) st).reservations = xs ∧
     (fetchReviews baseUrl (.ok (.arr xs)) st).totalCount = xs.length) ∧
    ((fetchReviews baseUrl (.ok (.env (some xs) err errs)) st).reservations
        = xs ∧
     (fetchReviews baseUrl (.ok (.env (some xs) err errs)) st).totalCount
        = xs.length) ∧
    (fetchDevices deviceLoansBaseUrl (.ok (.arr ys)) dst).devices = ys ∧
    (fetchDevices deviceLoansBaseUrl
        (.ok (.env (some ys) derr derrs)) dst).devices = ys := by
  refine ⟨⟨?_, ?_⟩, ⟨?_, ?_⟩, ?_, ?_⟩ <;>
    simp [fetchReviews, fetchDevices, extractErrorsGet, truthyErr, hb, hd,
      henv]

/-- Counterexample to C5 as stated: an envelope whose `data` field is a
non-empty array but that also carries an `error` field does not become the
stored list — `fetchReviews` clears the list and stores the error. -/
theorem fetchReviews_envelope_error_drops_data :
    (fetchReviews "b" (.ok (.env (some [exReservation]) (some "boom") none))
        { reservations := [], totalCount := 0, error := none }).reservations
      = [] ∧
    (fetchReviews "b" (.ok (.env (some [exReservation]) (some "boom") none))
        { reservations := [], totalCount := 0, error := none }).error
      = some "boom" := by
  constructor <;> rfl

/-- Witness for C5. -/
theorem get_bodies_array_or_envelope_accepted_witness :
    (fetchReviews "b" (.ok (.arr [exReservation]))
        { reservations := [], totalCount := 0, error := none }).reservations
      = [exReservation] ∧
    (fetchDevices "d" (.ok (.env (some [exDevice]) none none))
        { devices := [], devicesError := none }).devices = [exDevice] :=
  ⟨(get_bodies_array_or_envelope_accepted "b" "d" (by decide) (by decide)
      [exReservation] [exDevice]
      { reservations := [], totalCount := 0, error := none }
      { devices := [], devicesError := none } none none none none rfl).1.1,
   (get_bodies_array_or_envelope_accepted "b" "d" (by decide) (by decide)
      [exReservation] [exDevice]
      { reservations := [], totalCount := 0, error := none }
      { devices := [], devicesError := none } none none none none rfl).2.2.2⟩

/-- C7: both data sources are re-fetched after every mutation, and in
parallel — `fetchReviews` and `fetchDevices` act on disjoint state
components, so the `Promise.all` pair commutes (no ordering dependency):
after a successful creation, after a collect, after a return, and at page
load, the resulting state is both fetches applied, in either order. -/
theorem mutations_refetch_both_sources (canCreate canManageLoans : Bool)
    (r : Reservation) (baseUrl deviceLoansBaseUrl : String)
    (addOut out : ReqOutcome PostBody)
    (rOut : FetchOutcome (GetBody Reservation))
    (dOut : FetchOutcome (GetBody Device)) (st : AppState)
    (hc : canCreate = true) (hm : canManageLoans = true) (hid : r.id ≠ "")
    (hok : (addReview baseUrl addOut st.rs).error = none) :
    (∀ s : AppState,
      fetchReviewsA baseUrl rOut (fetchDevicesA deviceLoansBaseUrl dOut s) =
        fetchDevicesA deviceLoansBaseUrl dOut
          (fetchReviewsA baseUrl rOut s)) ∧
    Page.handleSubmit canCreate baseUrl addOut rOut deviceLoansBaseUrl dOut
        st =
      fetchDevicesA deviceLoansBaseUrl dOut (fetchReviewsA baseUrl rOut
        { st with rs := addReview baseUrl addOut st.rs }) ∧
    Page.handleCollect canManageLoans r baseUrl out rOut deviceLoansBaseUrl
        dOut st =
      fetchDevicesA deviceLoansBaseUrl dOut (fetchReviewsA baseUrl rOut
        { st with rs := collectReservation baseUrl out st.rs }) ∧
    Page.handleReturn canManageLoans r baseUrl out rOut deviceLoansBaseUrl
        dOut st =
      fetchDevicesA deviceLoansBaseUrl dOut (fetchReviewsA baseUrl rOut
        { st with rs := returnReservation baseUrl out st.rs }) ∧
    Page.onMounted deviceLoansBaseUrl dOut baseUrl rOut st =
      fetchDevicesA deviceLoansBaseUrl dOut
        (fetchReviewsA baseUrl rOut st) := by
  subst hc hm
  refine ⟨fun s => fetchA_comm _ _ _ _ s, ?_, ?_, ?_, ?_⟩
  · simp [Page.handleSubmit, hok]
  · simp [Page.handleCollect, hid]
  · simp [Page.handleReturn, hid]
  · exact fetchA_comm _ _ _ _ st

/-- Witness for C7 at page load on the empty state. -/
theorem mutations_refetch_both_sources_witness :
    Page.onMounted "d" (.ok (.arr [])) "b" (.ok (.arr []))
      { rs := { reservations := [], totalCount := 0, error := none },
        ds := { devices := [], devicesError := none } } =
      fetchDevicesA "d" (.ok (.arr [])) (fetchReviewsA "b" (.ok (.arr []))
        { rs := { reservations := [], totalCount := 0, error := none },
          ds := { devices := [], devicesError := none } }) :=
  (mutations_refetch_both_sources true true exReservation "b" "d"
    (.ok (.item exReservation)) (.ok (.item exReservation))
    (.ok (.arr [])) (.ok (.arr []))
    { rs := { reservations := [], totalCount := 0, error := none },
      ds := { devices := [], devicesError := none } }
    rfl rfl (by decide) (by decide)).2.2.2.2

/-- C10: a successful collect or return that yields an updated reservation
record replaces exactly the entries whose id matches the updated record's
id: the stored list keeps its length, and position-wise every entry with a
different id is unchanged while matching entries become the server's
record. -/
theorem collect_return_update_frame (baseUrl : String) (hb : baseUrl ≠ "")
    (body : PostBody) (u : Reservation) (st : ReviewsState)
    (hu : extractRecord body = some u)
    (herr : extractErrorsPost body = none) :
    (collectReservation baseUrl (.ok body) st).reservations.length =
      st.reservations.length ∧
    (∀ i : Nat, (collectReservation baseUrl (.ok body) st).reservations[i]? =
      (st.reservations[i]?).map (fun r => if r.id = u.id then u else r)) ∧
    (returnReservation baseUrl (.ok body) st).reservations.length =
      st.reservations.length ∧
    (∀ i : Nat, (returnReservation baseUrl (.ok body) st).reservations[i]? =
      (st.reservations[i]?).map (fun r => if r.id = u.id then u else r)) := by
  have hcol : (collectReservation baseUrl (.ok body) st).reservations =
      st.reservations.map (fun r => if r.id = u.id then u else r) := by
    cases body with
    | env d e es =>
      cases d with
      | none => simp [extractRecord] at hu
      | some v =>
        simp only [extractRecord, Option.some.injEq] at hu
        subst hu
        simp [collectReservation, hb, herr, extractRecord, truthyErr]
    | item v =>
      simp only [extractRecord, Option.some.injEq] at hu
      subst hu
      simp [collectReservation, hb, herr, extractRecord, truthyErr]
    | nullBody => simp [extractRecord] at hu
    | prim => simp [extractRecord] at hu
  have hret : (returnReservation baseUrl (.ok body) st).reservations =
      st.reservations.map (fun r => if r.id = u.id then u else r) := by
    cases body with
    | env d e es =>
      cases d with
      | none => simp [extractRecord] at hu
      | some v =>
        simp only [extractRecord, Option.some.injEq] at hu
        subst hu
        simp [returnReservation, hb, herr, extractRecord, truthyErr]
    | item v =>
      simp only [extractRecord, Option.some.injEq] at hu
      subst hu
      simp [returnReservation, hb, herr, extractRecord, truthyErr]
    | nullBody => simp [extractRecord] at hu
    | prim => simp [extractRecord] at hu
  refine ⟨?_, ?_, ?_, ?_⟩
  · rw [hcol, List.length_map]
  · intro i; rw [hcol, List.getElem?_map]
  · rw [hret, List.length_map]
  · intro i; rw [hret, List.getElem?_map]

/-- Witness for C10: collecting the worked example's reservation keeps the
one-element list's length. -/
theorem collect_return_update_frame_witness :
    (collectReservation "b"
        (.ok (.item { exReservation with status := some "collected" }))
        { reservations := [exReservation], totalCount := 1,
          error := none }).reservations.length = 1 :=
  (collect_return_update_frame "b" (by decide)
    (.item { exReservation with status := some "collected" })
    { exReservation with status := some "collected" }
    { reservations := [exReservation], totalCount := 1, error := none }
    rfl rfl).1
